import Mathlib

/-!
# Verification of the nerddiary core against its specification

Shallow embedding of the nerddiary repository's core subsystems:

* `Crypto`   — `src/nerddiary/core/data/crypto.py` (`EncryptionProdiver`)
* `Data`     — `src/nerddiary/core/data/data.py` (`DataProvider.get_connection`,
               `SQLLiteConnection` log queries)
* `Workflow` — `src/nerddiary/poll/workflow.py` (`PollWorkflow`), with the
               question-type dispatch of `src/nerddiary/poll/type.py`
* `Session`  — `src/nerddiary/server/session/session.py` (`UserSession.start_poll`)

Python data is modelled with plain Lean data: byte strings as `List Nat`,
`datetime`/`timedelta` as `Int` (epoch seconds / seconds), dictionaries as
association lists with Python's insert-overwrite semantics, exceptions as
`Except` error values.  Library primitives that are external to the repository
(PBKDF2, the Fernet AEAD cipher) are abstracted as parameters carrying exactly
the contract the repository relies on.  Python's reference semantics for the
mutable default arguments of `PollWorkflow.__init__` are modelled with an
explicit heap of answer dictionaries.
-/

namespace Crypto

/-- Big-endian byte encoding of a natural number on `w` bytes:
Python's `n.to_bytes(w, "big")` (defined for `n < 256 ^ w`). -/
def toBytesBE (w : Nat) (n : Nat) : List Nat :=
  match w with
  | 0 => []
  | Nat.succ w1 => (n / 256 ^ w1) % 256 :: toBytesBE w1 (n % 256 ^ w1)

/-- Big-endian byte decoding: Python's `int.from_bytes(bs, "big")`. -/
def fromBytesBE (bs : List Nat) : Nat :=
  bs.foldl (fun acc b => acc * 256 + b) 0

/-- Contract of the Fernet AEAD cipher (`cryptography.fernet.Fernet`), which the
repository consumes as an external library.  `enc` and `dec` act on raw bytes
(the `b64d`/`b64e` transcoding done by the source around Fernet's own base64
token format is a bijection and is modelled away as the identity); `dec`
returns `none` where the library raises `InvalidToken`.  The single law is the
decrypt-of-encrypt round trip under the same key. -/
structure FernetLike (K : Type) where
  enc : K → List Nat → List Nat
  dec : K → List Nat → Option (List Nat)
  dec_enc : ∀ k m, dec k (enc k m) = some m

/-- Default PBKDF2 iteration count (`ITERATIONS` in crypto.py). -/
def ITERATIONS : Nat := 390000

/-- State of `EncryptionProdiver` (crypto.py lines 26-31): the password, the
iteration count, the 16-byte salt and the key derived from them. -/
structure EncryptionProdiver (K : Type) where
  password : String
  iterations : Nat
  salt : List Nat
  key : K
deriving DecidableEq, Repr

/-- `EncryptionProdiver.__init__(password, iterations)` — the random
`secrets.token_bytes(16)` salt is passed in explicitly; the key is derived by
the (abstracted) PBKDF2 `_derive_key` function `D`. -/
def mkProvider {K : Type} (D : String → List Nat → Nat → K)
    (password : String) (salt : List Nat) (iterations : Nat := ITERATIONS) :
    EncryptionProdiver K :=
  { password := password, iterations := iterations, salt := salt,
    key := D password salt iterations }

/-- `EncryptionProdiver.encrypt` (crypto.py lines 33-41):
`b64e(salt || iterations.to_bytes(4, "big") || b64d(Fernet(key).encrypt(m)))`. -/
def encrypt {K : Type} (F : FernetLike K) (p : EncryptionProdiver K)
    (message : List Nat) : List Nat :=
  p.salt ++ toBytesBE 4 p.iterations ++ F.enc p.key message

/-- `EncryptionProdiver.decrypt` (crypto.py lines 43-51): split the token as
`salt = decoded[:16]`, `iterations = int.from_bytes(decoded[16:20], "big")`,
ciphertext `decoded[20:]`; re-derive the key when salt or iteration count
differ from the instance's own, else use the cached key.  `none` models the
`InvalidToken` raised by Fernet on authentication failure. -/
def decrypt {K : Type} (F : FernetLike K) (D : String → List Nat → Nat → K)
    (p : EncryptionProdiver K) (token : List Nat) : Option (List Nat) :=
  let salt := token.take 16
  let iterations := fromBytesBE ((token.drop 16).take 4)
  let ciphertext := token.drop 20
  let key :=
    if salt ≠ p.salt ∨ iterations ≠ p.iterations then D p.password salt iterations
    else p.key
  F.dec key ciphertext

end Crypto

namespace Data

/-- `DataCorruptionType` (data.py lines 19-24). -/
inductive DataCorruptionType
  | UNDEFINED
  | LOCK_WRITE_FAILURE
  | INCORRECT_LOCK
  | CONFIG_NO_LOCK
  | DATA_NO_LOCK
deriving DecidableEq, Repr

/-- Exceptions escaping the data layer: `DataCorruptionError(kind)`,
`IncorrectPasswordKeyError`, plain `ValueError`, the cipher's `InvalidToken`,
and `TypeError` for calls that do not match a signature. -/
inductive DataErr
  | corruption (kind : DataCorruptionType)
  | incorrectPasswordKey
  | valueError
  | invalidToken
  | typeError
deriving DecidableEq, Repr

/-- The `password_or_key` argument of `get_connection`: a `str` password, a
`bytes` raw key, or any other python object (e.g. the `float` used in the
tests). -/
inductive PasswordOrKey
  | password (w : String)
  | key (k : List Nat)
  | other
deriving DecidableEq, Repr

/-- The on-disk state `get_connection` consults for one user: the lock file
contents (if the file exists), and whether the config file and the data file
exist (`check_lock_exist` / `check_config_exist` / `check_data_exist` of
`SQLLiteProvider`, data.py lines 253-271). -/
structure UserFiles where
  lock : Option (List Nat)
  configExists : Bool
  dataExists : Bool
deriving DecidableEq, Repr

/-- `DataProvider.get_connection` (data.py lines 73-110).  Returns the
resolved `EncryptionProdiver` (the data connection is bound to it) together
with the possibly updated on-disk state; errors leave the files untouched.

* No lock file: config existing raises `DataCorruptionError(CONFIG_NO_LOCK)`,
  else data existing raises `DataCorruptionError(DATA_NO_LOCK)`, else a
  non-`str` argument raises `ValueError`; otherwise a fresh provider is
  derived (`freshSalt` stands for the `secrets.token_bytes(16)` draw), the
  user id is encrypted into the lock file and the lock is saved
  (`save_lock` only fails on `OSError`, which is not modelled).
* Lock file present: the source calls
  `EncryptionProdiver(password_or_key, init_token=lock, control_message=...)`,
  but `EncryptionProdiver.__init__` in crypto.py accepts only
  `(password, iterations)`, so the call itself raises `TypeError` (uncaught —
  the `except` arms handle only `InvalidToken` and `ValueError`). -/
def get_connection {K : Type} (F : Crypto.FernetLike K)
    (D : String → List Nat → Nat → K) (freshSalt : List Nat)
    (user_id : List Nat) (password_or_key : PasswordOrKey) (files : UserFiles) :
    Except DataErr (Crypto.EncryptionProdiver K) × UserFiles :=
  match files.lock with
  | none =>
    if files.configExists then (.error (.corruption .CONFIG_NO_LOCK), files)
    else if files.dataExists then (.error (.corruption .DATA_NO_LOCK), files)
    else
      match password_or_key with
      | .password w =>
        let encr := Crypto.mkProvider D w freshSalt
        let lock := Crypto.encrypt F encr user_id
        (.ok encr, { files with lock := some lock })
      | _ => (.error .valueError, files)
  | some _ => (.error .typeError, files)

/-- One row of the `data` table of `SQLLiteConnection` (data.py lines
314-322).  The payload type `γ` abstracts the encrypted BLOB. -/
structure LogRow (γ : Type) where
  id : Nat
  poll_code : String
  log : γ
  created_ts : Int
  updated_ts : Int
deriving DecidableEq, Repr

/-- `SQLLiteConnection.append_log` (data.py lines 353-373): encrypt the
payload and insert one row with `created_ts = updated_ts = now`; the
auto-increment primary key is the row count so far plus one.  Returns the new
id and the new table. -/
def append_log {γ : Type} (enc : String → γ) (table : List (LogRow γ))
    (poll_code : String) (log : String) (now : Int) : Nat × List (LogRow γ) :=
  let id := table.length + 1
  (id, table ++ [{ id := id, poll_code := poll_code, log := enc log,
                   created_ts := now, updated_ts := now }])

/-- `SQLLiteConnection._query_and_decrypt` (data.py lines 375-389): decrypt
each fetched row in order into `(row.id, plaintext)`.  There is no exception
handling in the loop, so the first row whose payload fails to decrypt raises
`InvalidToken` and aborts the whole read. -/
def queryAndDecrypt {γ : Type} (dec : γ → Option String) :
    List (LogRow γ) → Except DataErr (List (Nat × String))
  | [] => .ok []
  | r :: rest =>
    match dec r.log with
    | none => .error .invalidToken
    | some s =>
      match queryAndDecrypt dec rest with
      | .error e => .error e
      | .ok out => .ok ((r.id, s) :: out)

/-- `SQLLiteConnection.get_poll_logs` (data.py lines 419-437): select the rows
with the given `poll_code`, apply the optional `created_ts` bounds, apply
`LIMIT max_rows` (note the Python truthiness test `if max_rows:` — a limit of
0 is falsy and means no limit), then `_query_and_decrypt`.  The SELECT has no
ORDER BY, so rows come back in insertion (rowid) order. -/
def get_poll_logs {γ : Type} (dec : γ → Option String) (table : List (LogRow γ))
    (poll_code : String) (date_from : Option Int) (date_to : Option Int)
    (max_rows : Option Nat) : Except DataErr (List (Nat × String)) :=
  let rows := table.filter (fun r => r.poll_code = poll_code)
  let rows := match date_from with
    | some d => rows.filter (fun r => d ≤ r.created_ts)
    | none => rows
  let rows := match date_to with
    | some d => rows.filter (fun r => r.created_ts ≤ d)
    | none => rows
  let rows := match max_rows with
    | some k => if k = 0 then rows else rows.take k
    | none => rows
  queryAndDecrypt dec rows

/-- `DataConnection.get_last_n_logs` (data.py lines 227-228):
`get_poll_logs(poll_code, max_rows=count)`. -/
def get_last_n_logs {γ : Type} (dec : γ → Option String) (table : List (LogRow γ))
    (poll_code : String) (count : Nat) : Except DataErr (List (Nat × String)) :=
  get_poll_logs dec table poll_code none none (some count)

/-- `SQLLiteConnection.get_all_logs` (data.py lines 414-417). -/
def get_all_logs {γ : Type} (dec : γ → Option String) (table : List (LogRow γ)) :
    Except DataErr (List (Nat × String)) :=
  queryAndDecrypt dec table

/-- `SQLLiteConnection.get_logs` (data.py lines 391-397): rows whose id is in
`ids`. -/
def get_logs {γ : Type} (dec : γ → Option String) (table : List (LogRow γ))
    (ids : List Nat) : Except DataErr (List (Nat × String)) :=
  queryAndDecrypt dec (table.filter (fun r => r.id ∈ ids))

/-- The table produced by a sequence of `append_log` calls for one poll code,
each element of `msgs` giving the payload and the creation timestamp of one
call. -/
def appendMany {γ : Type} (enc : String → γ) (table : List (LogRow γ))
    (poll_code : String) : List (String × Int) → List (LogRow γ)
  | [] => table
  | (m, t) :: rest =>
    appendMany enc (append_log enc table poll_code m t).2 poll_code rest

/-- The rows such a sequence of `append_log` calls builds, with ids counting
up from `firstId`. -/
def builtRows {γ : Type} (enc : String → γ) (poll_code : String)
    (firstId : Nat) : List (String × Int) → List (LogRow γ)
  | [] => []
  | (m, t) :: rest =>
    { id := firstId, poll_code := poll_code, log := enc m,
      created_ts := t, updated_ts := t } :: builtRows enc poll_code (firstId + 1) rest

/-- The decrypted `(id, payload)` view of those rows. -/
def expectedRows (firstId : Nat) : List (String × Int) → List (Nat × String)
  | [] => []
  | (m, _) :: rest => (firstId, m) :: expectedRows (firstId + 1) rest

end Data

namespace Workflow

/-- Answer values passed around as `ValueLabel.value`: strings (select
options) or datetimes (timestamp types, modelled as epoch seconds). -/
inductive PyVal
  | s (v : String)
  | dt (t : Int)
deriving DecidableEq, Repr

/-- `ValueLabel` (`src/nerddiary/core/primitive/valuelabel.py`): a tagged
value/label pair. -/
structure ValueLabel where
  value : PyVal
  label : String
deriving DecidableEq, Repr

/-- `datetime.isoformat()` under the epoch-seconds model of datetimes: the
decimal rendering (injective, parsed back by `isoParse`). -/
def isoformat (t : Int) : String := toString t

/-- `datetime.fromisoformat` under the same model; `none` is the `ValueError`
the real function raises on a malformed string. -/
def isoParse (s : String) : Option Int := s.toInt?

/-- Exceptions crossing the workflow layer. -/
inductive PyErr
  | unsupportedAnswer   -- UnsupportedAnswerError (type.py line 23)
  | attributeError      -- AttributeError raised by DependantSelectType
  | notImplementedError -- NotImplementedError on auto/manual misuse
  | indexError          -- list index out of range
  | keyError            -- dict lookup failure
  | assertionError      -- a failed `assert`
deriving DecidableEq, Repr

/-- The question-type variants of `src/nerddiary/poll/type.py` exercised by
the claims: `SelectType`, `DependantSelectType` and the auto `TimestampType`.
(`RelativeTimestampType` differs from `SelectType` only in its answer
grammar and is not needed by any claim settled here.) -/
inductive QuestionType
  | select (options : List ValueLabel)
  | dependantSelect (sel : List (String × List ValueLabel))
  | timestamp
deriving DecidableEq, Repr

/-- `_auto` flag: only `TimestampType` sets it (type.py lines 111, 145, 229). -/
def QuestionType.is_auto : QuestionType → Bool
  | .timestamp => true
  | _ => false

/-- Python dict lookup on a keys-in-insertion-order association list. -/
def assocLookup {α : Type} (l : List (String × α)) (k : String) : Option α :=
  (l.find? (fun p => p.1 = k)).map (fun p => p.2)

/-- `candidates = [vl for vl in select if vl.value == answer]`; empty raises
`UnsupportedAnswerError`, else the first candidate is returned (type.py lines
120-124 and 177-181). -/
def lookupSelect (options : List ValueLabel) (answer : String) :
    Except PyErr ValueLabel :=
  match options.filter (fun vl => vl.value = PyVal.s answer) with
  | [] => .error .unsupportedAnswer
  | c :: _ => .ok c

/-- `QuestionType.get_value_from_answer` (type.py lines 117-124, 161-181, and
the auto guard at lines 74-79).  `SelectType` matches the answer against its
option values; `DependantSelectType` first resolves the sub-list keyed by the
dependency value (raising `AttributeError` when the dependency value is
missing, not a string, or not a key); the auto `TimestampType` raises
`NotImplementedError`. -/
def QuestionType.get_value_from_answer (qt : QuestionType) (answer : String)
    (dep_value : Option ValueLabel) : Except PyErr ValueLabel :=
  match qt with
  | .select options => lookupSelect options answer
  | .dependantSelect sel =>
    match dep_value with
    | none => .error .attributeError
    | some dv =>
      match dv.value with
      | .dt _ => .error .attributeError
      | .s dvs =>
        match assocLookup sel dvs with
        | none => .error .attributeError
        | some opts => lookupSelect opts answer
  | .timestamp => .error .notImplementedError

/-- `QuestionType.get_auto_value` (type.py lines 81-83 and 235-246):
`TimestampType` returns now (in the user's timezone) with a clock label;
non-auto types raise `NotImplementedError`. -/
def QuestionType.get_auto_value (qt : QuestionType) (now : Int) :
    Except PyErr ValueLabel :=
  match qt with
  | .timestamp => .ok { value := PyVal.dt now, label := isoformat now }
  | _ => .error .notImplementedError

/-- `QuestionType.serialize_value` (type.py lines 126-127, 183-184, 248-249):
`str(value.value)` for the select types, `value.value.isoformat()` for the
timestamp types — both reduce to the rendering of the stored value under the
model. -/
def QuestionType.serialize_value (_qt : QuestionType) (value : ValueLabel) : String :=
  match value.value with
  | .s v => v
  | .dt t => isoformat t

/-- `Question`.  Modelled from the spec: `src/nerddiary/poll/question.py` is
absent from the source tree (only `workflow.py`, `type.py` and the question
tests reference it), so the record follows spec §3 — `{ code, type,
depends_on?, ephemeral, delay_time?, delay_on? }` — and the field defaults
asserted by `poll/test/test_question.py` (`ephemeral False`, `depends_on`,
`delay_time` and `delay_on` all `None`).  Fields not read by any code under
verification (display name, description) are omitted; `_order` is recovered
from the question's position, exactly as `Poll.__init__` assigns it. -/
structure Question where
  code : String
  qtype : QuestionType
  depends_on : Option String := none
  ephemeral : Bool := false
  delay_time : Option Int := none
  delay_on : Option (List String) := none
deriving DecidableEq, Repr

/-- `Poll` (`src/nerddiary/core/poll/poll.py`): name, ordered question list,
once-per-day flag (the reminder/command/hours-over-midnight fields are not
read by the code under verification). -/
structure Poll where
  poll_name : String
  questions : List Question
  once_per_day : Bool := true
deriving DecidableEq, Repr

/-- `Poll.__init__`'s `_questions_dict` (poll.py lines 67-71) composed with
`._order`: the dict maps a question code to the question carrying its
position, a later duplicate code overwriting an earlier one; `none` models
the `KeyError` of a missing code. -/
def Poll.questionOrder (p : Poll) (code : String) : Option Nat :=
  p.questions.enum.foldl
    (fun acc iq => if iq.2.code = code then some iq.1 else acc) none

/-- `AddAnswerResult` (workflow.py lines 21-25). -/
inductive AddAnswerResult
  | ADDED
  | COMPLETED
  | DELAY
  | ERROR
deriving DecidableEq, Repr

/-- `answers_raw`: a Python `dict[int, ValueLabel]` — an association list in
key insertion order. -/
abbrev AnswersDict := List (Nat × ValueLabel)

/-- Python `d[k] = v`: overwrite in place if the key exists, else append. -/
def dictSet (d : AnswersDict) (k : Nat) (v : ValueLabel) : AnswersDict :=
  if (d.find? (fun p => p.1 = k)).isSome then
    d.map (fun p => if p.1 = k then (k, v) else p)
  else d ++ [(k, v)]

/-- Python `d[k]` as an option (`none` = `KeyError`). -/
def dictGet (d : AnswersDict) (k : Nat) : Option ValueLabel :=
  (d.find? (fun p => p.1 = k)).map (fun p => p.2)

/-- A heap of answer dictionaries.  `PollWorkflow` instances hold a
*reference* to their dict, because Python binds `self._answers_raw` to the
passed object without copying — and the default argument
`answers_raw: Dict[int, ValueLabel] = {}` is one dict object created when the
`def` is evaluated at module load, shared by every call that omits the
argument. -/
structure Heap where
  cells : Nat → AnswersDict
  nextRef : Nat

/-- Read the dict behind a reference. -/
def Heap.get (h : Heap) (r : Nat) : AnswersDict := h.cells r

/-- Replace the dict behind a reference (in-place mutation of the object). -/
def Heap.set (h : Heap) (r : Nat) (d : AnswersDict) : Heap :=
  { h with cells := fun i => if i = r then d else h.cells i }

/-- Allocate a fresh dict object. -/
def Heap.alloc (h : Heap) (d : AnswersDict) : Nat × Heap :=
  (h.nextRef,
   { cells := fun i => if i = h.nextRef then d else h.cells i,
     nextRef := h.nextRef + 1 })

/-- The reference of the single dict created by evaluating the default
`answers_raw: Dict[int, ValueLabel] = {}` at module load. -/
def defaultAnswersRef : Nat := 0

/-- The UUID produced by the single evaluation of the default argument
`poll_run_id: UUID | None = uuid4()` at module load; every construction that
omits `poll_run_id` receives this same value (UUIDs are modelled as their
`int` form). -/
def moduleLoadUUID : Nat := 271828

/-- Heap state right after module load: the shared default dict (cell 0) is
empty. -/
def initialHeap : Heap := { cells := fun _ => [], nextRef := 1 }

/-- `PollWorkflow` state (workflow.py lines 29-64).  `_poll` is deep-copied at
construction, which Lean's value semantics gives for free; `_answers_raw` is a
heap reference (see `Heap`); the user is not stored because the only thing the
verified code reads from it is the timezone used to compute "now", which is
passed explicitly. -/
structure PollWorkflow where
  poll_run_id : Nat
  log_id : Option Nat := none
  poll : Poll
  answersRef : Nat
  current_question_index : Nat
  poll_ts : Int
  delayed_at : Option Int := none
deriving DecidableEq, Repr

/-- `PollWorkflow.__init__` (workflow.py lines 29-64).  Omitted `poll_run_id`
and `answers_raw` fall back to the module-load defaults (`uuid4()` and `{}`
are evaluated once, at function definition time).  The
`hours_over_midgnight` adjustment only runs when `poll_ts` is `None` and no
claim reaches it, so a missing `poll_ts` is taken as `now` here. -/
def mkPollWorkflow (poll : Poll) (now : Int)
    (poll_run_id : Option Nat := none)
    (log_id : Option Nat := none)
    (answers_raw : Option Nat := none)
    (current_question_index : Nat := 0)
    (poll_ts : Option Int := none)
    (delayed_at : Option Int := none) : PollWorkflow :=
  { poll_run_id := poll_run_id.getD moduleLoadUUID
    log_id := log_id
    poll := poll
    answersRef := answers_raw.getD defaultAnswersRef
    current_question_index := current_question_index
    poll_ts := poll_ts.getD now
    delayed_at := delayed_at }

/-- `PollWorkflow.completed` (workflow.py lines 86-88):
`current_question_index == len(questions)`. -/
def completed (w : PollWorkflow) : Bool :=
  w.current_question_index = w.poll.questions.length

/-- `PollWorkflow.answers` (workflow.py lines 122-124):
`[val for q_index, val in answers_raw.items() if not questions[q_index].ephemeral]`
(an out-of-range stored index raises `IndexError`). -/
def answersList (qs : List Question) : AnswersDict → Except PyErr (List ValueLabel)
  | [] => .ok []
  | (i, v) :: rest =>
    match qs.get? i with
    | none => .error .indexError
    | some q =>
      match answersList qs rest with
      | .error e => .error e
      | .ok out => .ok (if q.ephemeral then out else v :: out)

/-- `PollWorkflow.answers` on a workflow and heap. -/
def answers (w : PollWorkflow) (h : Heap) : Except PyErr (List ValueLabel) :=
  answersList w.poll.questions (h.get w.answersRef)

/-- `PollWorkflow._add_answer` (workflow.py lines 130-131):
`self._answers_raw[question_index] = val` — an in-place mutation of the dict
object, visible through every workflow holding the same reference. -/
def addAnswerRaw (w : PollWorkflow) (h : Heap) (val : ValueLabel)
    (question_index : Nat) : Heap :=
  h.set w.answersRef (dictSet (h.get w.answersRef) question_index val)

/-- The dependency resolution
`self._answers_raw[self._poll._questions_dict[depends_on]._order]`
(workflow.py lines 153, 176): a missing code or a missing stored answer is a
`KeyError`. -/
def depValue (w : PollWorkflow) (h : Heap) (code : String) :
    Except PyErr ValueLabel :=
  match w.poll.questionOrder code with
  | none => .error .keyError
  | some ord =>
    match dictGet (h.get w.answersRef) ord with
    | none => .error .keyError
    | some v => .ok v

/-- `PollWorkflow._process_auto_question` (workflow.py lines 147-160): compute
the current (auto) question's value — resolving the dependency first when
`depends_on` is set — and store it at the current index. -/
def processAutoQuestion (w : PollWorkflow) (h : Heap) (now : Int) :
    Except PyErr Heap :=
  match w.poll.questions.get? w.current_question_index with
  | none => .error .indexError
  | some q =>
    let valueE : Except PyErr ValueLabel :=
      match q.depends_on with
      | some code =>
        match depValue w h code with
        | .error e => .error e
        | .ok _dv => q.qtype.get_auto_value now
      | none => q.qtype.get_auto_value now
    match valueE with
    | .error e => .error e
    | .ok value => .ok (addAnswerRaw w h value w.current_question_index)

/-- `PollWorkflow._next_question` (workflow.py lines 133-145): return `False`
if already completed; otherwise increment the index and read
`questions[self._current_question_index]` — **this read is performed before
any bounds check, so stepping past the last question raises `IndexError`** —
then recursively auto-fill while the new question is auto. -/
def nextQuestion (w : PollWorkflow) (h : Heap) (now : Int) :
    Except PyErr (Bool × PollWorkflow × Heap) :=
  if completed w then .ok (false, w, h)
  else
    let w1 : PollWorkflow :=
      { w with current_question_index := w.current_question_index + 1 }
    match hq : w1.poll.questions.get? w1.current_question_index with
    | none => .error .indexError
    | some q =>
      if q.qtype.is_auto then
        match processAutoQuestion w1 h now with
        | .error e => .error e
        | .ok h1 => nextQuestion w1 h1 now
      else .ok (true, w1, h)
termination_by w.poll.questions.length - w.current_question_index
decreasing_by
  simp only [PollWorkflow.mk.injEq] at *
  have hlt : w.current_question_index + 1 < w.poll.questions.length :=
    List.get?_eq_some.mp hq |>.1
  omega

/-- The body of `add_answer` from line 171 on (workflow.py lines 171-192):
resolve the dependency, parse the raw answer through the question type (the
concrete types *raise* `UnsupportedAnswerError` rather than returning `None`,
so the `if not value: return ERROR` guard of line 181 never fires and is
modelled by its absence), check the `delay_on` trigger (Python truthiness:
an absent or empty `delay_on` never triggers), else store and advance. -/
def addAnswerMain (w : PollWorkflow) (h : Heap) (answer : String) (now : Int) :
    Except PyErr (AddAnswerResult × PollWorkflow × Heap) :=
  match w.poll.questions.get? w.current_question_index with
  | none => .error .indexError
  | some q =>
    let valueE : Except PyErr ValueLabel :=
      match q.depends_on with
      | some code =>
        match depValue w h code with
        | .error e => .error e
        | .ok dv => q.qtype.get_value_from_answer answer (some dv)
      | none => q.qtype.get_value_from_answer answer none
    match valueE with
    | .error e => .error e
    | .ok value =>
      if (q.delay_on.getD []).contains (q.qtype.serialize_value value) then
        .ok (.DELAY, { w with delayed_at := some now }, h)
      else
        let h1 := addAnswerRaw w h value w.current_question_index
        match nextQuestion w h1 now with
        | .error e => .error e
        | .ok (true, w2, h2) => .ok (.ADDED, w2, h2)
        | .ok (false, w2, h2) => .ok (.COMPLETED, w2, h2)

/-- `PollWorkflow.add_answer` (workflow.py lines 162-192).  The delayed gate
(lines 164-169): while `delayed_at` is set and less than the current
question's `delay_time` has elapsed, return `DELAY` without consuming the
answer; once elapsed, clear `delayed_at` and fall through to the main body.
`assert self.current_delay_time` fails when the current question has no
`delay_time` (or a zero one — `timedelta(0)` is falsy). -/
def add_answer (w : PollWorkflow) (h : Heap) (answer : String) (now : Int) :
    Except PyErr (AddAnswerResult × PollWorkflow × Heap) :=
  match w.delayed_at with
  | some t =>
    match w.poll.questions.get? w.current_question_index with
    | none => .error .indexError
    | some q =>
      match q.delay_time with
      | none => .error .assertionError
      | some dt =>
        if dt = 0 then .error .assertionError
        else if now - t < dt then .ok (.DELAY, w, h)
        else addAnswerMain { w with delayed_at := none } h answer now
  | none => addAnswerMain w h answer now

/-- `PollWorkflow.get_save_data` (workflow.py lines 194-213): the ISO poll
timestamp followed by one serialized cell per non-ephemeral question in
order, blank when unanswered (the CSV quoting is elided — the result is the
list of cells). -/
def getSaveData (w : PollWorkflow) (h : Heap) : Int × List String :=
  let d := h.get w.answersRef
  let cells := w.poll.questions.enum.filterMap (fun iq =>
    if iq.2.ephemeral then none
    else some (match dictGet d iq.1 with
      | some v => iq.2.qtype.serialize_value v
      | none => ""))
  (w.poll_ts, isoformat w.poll_ts :: cells)

/-- The dictionary produced by `PollWorkflow.to_dict` (workflow.py lines
215-225).  The `user` entry is omitted with the `User` model.  `answers_raw`
is the dict `{i: v.dict()}` — `v.dict()` is `v` itself under the model. -/
structure WorkflowDict where
  poll : Poll
  poll_run_id : Nat
  log_id : Option Nat
  answers_raw : List (Nat × ValueLabel)
  current_question_index : Nat
  poll_ts : String
  delayed_at : String
deriving DecidableEq, Repr

/-- `PollWorkflow.to_dict` (workflow.py lines 215-225). -/
def toDict (w : PollWorkflow) (h : Heap) : WorkflowDict :=
  { poll := w.poll
    poll_run_id := w.poll_run_id
    log_id := w.log_id
    answers_raw := h.get w.answersRef
    current_question_index := w.current_question_index
    poll_ts := isoformat w.poll_ts
    delayed_at := match w.delayed_at with | some t => isoformat t | none => "" }

/-- Errors escaping `PollWorkflow.from_dict`:
`NerdDiaryError(WORKFLOW_FAILED_DESERIALIZE)` — the dedicated wrapper raised
from caught `ValidationError` / `ValueError`, carrying the original payload —
or an uncaught `TypeError`. -/
inductive FromDictErr
  | workflowFailedDeserialize
  | typeError
deriving DecidableEq, Repr

/-- `PollWorkflow.from_dict` (workflow.py lines 257-284).  The comprehension
`{i: ValueLabel.parse_obj(v) for i, v in serialized["answers_raw"]}` iterates
the *dict*, which yields its integer keys; unpacking an `int` into `(i, v)`
raises `TypeError` — caught by neither `except ValidationError` nor
`except ValueError` — so any non-empty answers dict escapes as `TypeError`.
With an empty dict the comprehension builds a fresh `{}` and the remaining
fields are parsed (a malformed timestamp string is a `ValueError` from
`datetime.fromisoformat`, wrapped as `WORKFLOW_FAILED_DESERIALIZE`). -/
def fromDict (d : WorkflowDict) (h : Heap) :
    Except FromDictErr (PollWorkflow × Heap) :=
  match d.answers_raw with
  | _ :: _ => .error .typeError
  | [] =>
    match isoParse d.poll_ts with
    | none => .error .workflowFailedDeserialize
    | some ts =>
      let delayedE : Except FromDictErr (Option Int) :=
        if d.delayed_at = "" then .ok none
        else
          match isoParse d.delayed_at with
          | none => .error .workflowFailedDeserialize
          | some t => .ok (some t)
      match delayedE with
      | .error e => .error e
      | .ok delayed =>
        let (r, h1) := h.alloc []
        .ok (mkPollWorkflow d.poll 0 (some d.poll_run_id) d.log_id (some r)
              d.current_question_index (some ts) delayed, h1)

end Workflow

namespace Session

/-- Errors raised by `UserSession.start_poll` on its guarded paths
(session.py lines 138-170); the status and poll-name lookups that precede the
modelled fragment are handled by the (excluded) transport caller. -/
inductive StartPollErr
  | pollAlreadyActive
deriving DecidableEq, Repr

/-- Python `d[k] = v` on a string-keyed dict. -/
def dictInsert (d : List (String × Workflow.PollWorkflow)) (k : String)
    (v : Workflow.PollWorkflow) : List (String × Workflow.PollWorkflow) :=
  if (d.find? (fun p => p.1 = k)).isSome then
    d.map (fun p => if p.1 = k then (k, v) else p)
  else d ++ [(k, v)]

/-- The `_active_polls` map of a `UserSession` (session.py line 40). -/
structure UserSession where
  active_polls : List (String × Workflow.PollWorkflow)
deriving DecidableEq, Repr

/-- `UserSession.start_poll` (session.py lines 138-170), from the point where
the poll has been found.  For a `once_per_day` poll an active run with the
same poll name raises `SESSION_POLL_ALREADY_ACTIVE`; the same-day resume
fragment constructs a workflow from the day's log row but discards it
(`workflow = ...; pass` — the binding is dead and overwritten two lines
later), so it has no observable effect and is elided.  A fresh
`PollWorkflow(poll=poll, user=...)` is then constructed — with **no**
`poll_run_id` argument, so it receives the module-load default UUID — and
registered under `workflow.poll_run_id` (the string form of that UUID),
overwriting any entry already stored under the same key. -/
def start_poll (s : UserSession) (poll : Workflow.Poll) (now : Int) :
    Except StartPollErr (Workflow.PollWorkflow × UserSession) :=
  if poll.once_per_day ∧
      s.active_polls.any (fun p => p.2.poll.poll_name = poll.poll_name) then
    .error .pollAlreadyActive
  else
    let w := Workflow.mkPollWorkflow poll now
    .ok (w, { active_polls := dictInsert s.active_polls (toString w.poll_run_id) w })

end Session

namespace Fixtures

/-- A trivial instance of the Fernet contract (any instance satisfying the
round-trip law can witness the crypto theorems). -/
def F0 : Crypto.FernetLike Nat :=
  { enc := fun _ m => m, dec := fun _ m => some m, dec_enc := fun _ _ => rfl }

/-- A trivial key-derivation function for witnesses. -/
def D0 : String → List Nat → Nat → Nat := fun _ _ _ => 0

/-- A 16-byte salt (the length `secrets.token_bytes(16)` always returns). -/
def salt16 : List Nat := List.replicate 16 0

/-- A distinct 16-byte salt for the second provider instance. -/
def salt16b : List Nat := List.replicate 16 7

/-- On-disk state with the lock file deleted but both the config and the data
file present. -/
def filesBoth : Data.UserFiles :=
  { lock := none, configExists := true, dataExists := true }

/-- Concrete payload model for the log table: `some s` is a well-formed
ciphertext of `s`, `none` a corrupted blob. -/
def encO : String → Option String := fun s => some s

/-- The matching decryption: the corrupted blob fails. -/
def decO : Option String → Option String := fun c => c

/-- The value/label pair for the answer option `Yes`. -/
def vYes : Workflow.ValueLabel := { value := Workflow.PyVal.s ("Yes"), label := "Yes" }

/-- The value/label pair for the answer option `No`. -/
def vNo : Workflow.ValueLabel := { value := Workflow.PyVal.s ("No"), label := "No" }

/-- A plain select question with options Yes/No. -/
def qYesNo : Workflow.Question :=
  { code := "q1", qtype := Workflow.QuestionType.select [vYes, vNo] }

/-- A second manual select question. -/
def qSecond : Workflow.Question :=
  { code := "q2", qtype := Workflow.QuestionType.select [vYes, vNo] }

/-- A single-question poll: its only question is also its last. -/
def pollOne : Workflow.Poll := { poll_name := "p", questions := [qYesNo] }

/-- The Yes/No question with `delay_on=["No"], delay_time=2s`. -/
def qDelay : Workflow.Question :=
  { code := "q1", qtype := Workflow.QuestionType.select [vYes, vNo],
    delay_time := some 2, delay_on := some ["No"] }

/-- A two-question poll whose first question delays on `No`. -/
def pollDelay : Workflow.Poll :=
  { poll_name := "pd", questions := [qDelay, qSecond] }

/-- A two-question poll of plain selects. -/
def pollTwo : Workflow.Poll := { poll_name := "pt", questions := [qYesNo, qSecond] }

/-- A workflow on `pollOne`, at its only (and last) question. -/
def wOne : Workflow.PollWorkflow := Workflow.mkPollWorkflow pollOne 0

/-- A workflow on `pollDelay` whose first question is delayed since time 100. -/
def wDelayed : Workflow.PollWorkflow :=
  Workflow.mkPollWorkflow pollDelay 0 none none none 0 none (some 100)

/-- A fresh (not yet delayed) workflow on `pollDelay`. -/
def wFresh : Workflow.PollWorkflow := Workflow.mkPollWorkflow pollDelay 0

/-- A workflow on `pollTwo` with a private answers dict (reference 1,
matching `initialHeap.alloc`). -/
def wTwo : Workflow.PollWorkflow :=
  Workflow.mkPollWorkflow pollTwo 0 none none (some 1) 0 none none

/-- Heap after `wTwo` recorded `Yes` for its first question via
`_add_answer`. -/
def hTwo : Workflow.Heap :=
  Workflow.addAnswerRaw wTwo Workflow.initialHeap vYes 0

/-- A poll named `a` for the first `start_poll` call. -/
def pollA : Workflow.Poll := { poll_name := "a", questions := [qYesNo] }

/-- A poll named `b` for the second `start_poll` call. -/
def pollB : Workflow.Poll := { poll_name := "b", questions := [qYesNo] }

/-- A log table with two rows appended for poll code `h`, the second created
after the first. -/
def tbl2 : List (Data.LogRow (Option String)) :=
  (Data.append_log encO
    (Data.append_log encO [] ("h") ("first") 1).2 ("h") ("second") 2).2

/-- Two payload/timestamp pairs with strictly increasing timestamps. -/
def msgs2 : List (String × Int) := [("first", 1), ("second", 2)]

/-- A log table holding one decryptable row and one corrupted row. -/
def tblMix : List (Data.LogRow (Option String)) :=
  [{ id := 1, poll_code := "h", log := some ("a"), created_ts := 1, updated_ts := 1 },
   { id := 2, poll_code := "h", log := none, created_ts := 2, updated_ts := 2 }]

end Fixtures

section CryptoLemmas

open Crypto

theorem toBytesBE_length (w n : Nat) : (toBytesBE w n).length = w := by
  induction w generalizing n with
  | zero => rfl
  | succ w1 ih => simp [toBytesBE, ih]

theorem fromBytesBE_cons (b : Nat) (bs : List Nat) :
    fromBytesBE (b :: bs) = b * 256 ^ bs.length + fromBytesBE bs := by
  have key : ∀ (l : List Nat) (a : Nat),
      l.foldl (fun acc b => acc * 256 + b) a = a * 256 ^ l.length + l.foldl (fun acc b => acc * 256 + b) 0 := by
    intro l
    induction l with
    | nil => intro a; simp
    | cons x xs ih =>
      intro a
      simp only [List.foldl_cons, List.length_cons]
      rw [ih (a * 256 + x), ih (0 * 256 + x)]
      ring
  simpa [fromBytesBE] using key bs b

/-- Round trip of the byte encoding for values that fit in `w` bytes. -/
theorem fromBytesBE_toBytesBE (w n : Nat) (h : n < 256 ^ w) :
    fromBytesBE (toBytesBE w n) = n := by
  induction w generalizing n with
  | zero =>
    simp only [pow_zero, Nat.lt_one_iff] at h
    simp [toBytesBE, fromBytesBE, h]
  | succ w1 ih =>
    have hmod : n % 256 ^ w1 < 256 ^ w1 := Nat.mod_lt _ (Nat.pos_pow_of_pos _ (by norm_num))
    rw [toBytesBE, fromBytesBE_cons, ih _ hmod, toBytesBE_length]
    have hdiv : n / 256 ^ w1 < 256 := by
      apply Nat.div_lt_of_lt_mul
      calc n < 256 ^ (w1 + 1) := h
        _ = 256 ^ w1 * 256 := by ring
    have : (n / 256 ^ w1) % 256 = n / 256 ^ w1 := Nat.mod_eq_of_lt hdiv
    rw [this, Nat.mul_comm]
    exact Nat.div_add_mod n (256 ^ w1)

theorem take_append_of_length {α : Type} (a b : List α) (n : Nat) (h : a.length = n) :
    (a ++ b).take n = a := by
  subst h
  simp

theorem drop_append_of_length {α : Type} (a b : List α) (n : Nat) (h : a.length = n) :
    (a ++ b).drop n = b := by
  subst h
  simp

end CryptoLemmas

/-- C1: Encryption round trip with key portability.  Any `EncryptionProdiver`
built from password `w` (own salt `sB`, iteration count `iB`) decrypts back to
`m` every token produced by `encrypt m` on any provider built from the same
password `w` (salt `sA`, iterations `iA`), re-deriving the key from the
token's embedded salt and iteration count when they differ from its own;
taking `sB = sA, iB = iA` this includes `decrypt (encrypt m) = m` on a single
instance.  The hypotheses record that salts are the 16 bytes
`secrets.token_bytes(16)` returns and that the iteration count fits the
4-byte field `int.to_bytes(4, "big")` requires. -/
theorem C1_encrypt_decrypt_roundtrip {K : Type} (F : Crypto.FernetLike K)
    (D : String → List Nat → Nat → K) (w : String) (sA sB : List Nat)
    (iA iB : Nat) (m : List Nat) (hsA : sA.length = 16) (hiA : iA < 256 ^ 4) :
    Crypto.decrypt F D (Crypto.mkProvider D w sB iB)
      (Crypto.encrypt F (Crypto.mkProvider D w sA iA) m) = some m := by
  have hlen4 : (Crypto.toBytesBE 4 iA).length = 4 := toBytesBE_length 4 iA
  have htake16 :
      (Crypto.encrypt F (Crypto.mkProvider D w sA iA) m).take 16 = sA := by
    rw [Crypto.encrypt, List.append_assoc]
    exact take_append_of_length _ _ _ hsA
  have hdrop16 :
      (Crypto.encrypt F (Crypto.mkProvider D w sA iA) m).drop 16
        = Crypto.toBytesBE 4 iA ++ F.enc (D w sA iA) m := by
    rw [Crypto.encrypt, List.append_assoc]
    exact drop_append_of_length _ _ _ hsA
  have hdrop20 :
      (Crypto.encrypt F (Crypto.mkProvider D w sA iA) m).drop 20
        = F.enc (D w sA iA) m := by
    rw [Crypto.encrypt]
    exact drop_append_of_length _ _ _ (by simp [Crypto.mkProvider, hsA, hlen4])
  have hiter : Crypto.fromBytesBE
      (((Crypto.encrypt F (Crypto.mkProvider D w sA iA) m).drop 16).take 4) = iA := by
    rw [hdrop16, take_append_of_length _ _ _ hlen4]
    exact fromBytesBE_toBytesBE 4 iA hiA
  have hpsalt : (Crypto.mkProvider D w sB iB).salt = sB := rfl
  have hpiter : (Crypto.mkProvider D w sB iB).iterations = iB := rfl
  have hpkey : (Crypto.mkProvider D w sB iB).key = D w sB iB := rfl
  have hppw : (Crypto.mkProvider D w sB iB).password = w := rfl
  rw [Crypto.decrypt]
  simp only [htake16, hdrop20, hiter, hpsalt, hpiter, hpkey, hppw]
  rcases Decidable.em (sA = sB ∧ iA = iB) with hc | hc
  · obtain ⟨hs, hi⟩ := hc
    subst hs
    subst hi
    simp [F.dec_enc]
  · rw [if_pos]
    · exact F.dec_enc _ _
    · rcases not_and_or.mp hc with hs | hi
      · exact Or.inl hs
      · exact Or.inr hi

/-- C1 witness: the round trip evaluated at concrete inputs — password `pw`,
two providers with different salts and iteration counts, message `[1, 2, 3]`. -/
theorem C1_encrypt_decrypt_roundtrip_witness :
    Fixtures.salt16.length = 16 ∧ (390000 : Nat) < 256 ^ 4 ∧
    Crypto.decrypt Fixtures.F0 Fixtures.D0
        (Crypto.mkProvider Fixtures.D0 ("pw") Fixtures.salt16b 1000)
        (Crypto.encrypt Fixtures.F0
          (Crypto.mkProvider Fixtures.D0 ("pw") Fixtures.salt16 390000) [1, 2, 3])
      = some [1, 2, 3] :=
  ⟨by decide, by norm_num,
    C1_encrypt_decrypt_roundtrip Fixtures.F0 Fixtures.D0 ("pw") Fixtures.salt16
      Fixtures.salt16b 390000 1000 [1, 2, 3] (by decide) (by norm_num)⟩

/-- C2 counterexample: a user whose lock file is missing while both the
config file and the data file exist.  The claim assigns `DATA_NO_LOCK` to
every data-file-without-lock state, but `get_connection` checks the config
file first and raises `DataCorruptionError(CONFIG_NO_LOCK)` here. -/
theorem C2_counterexample :
    (Data.get_connection Fixtures.F0 Fixtures.D0 Fixtures.salt16 [49]
        (Data.PasswordOrKey.password ("pw")) Fixtures.filesBoth).1
      = Except.error (Data.DataErr.corruption Data.DataCorruptionType.CONFIG_NO_LOCK) ∧
    (Data.get_connection Fixtures.F0 Fixtures.D0 Fixtures.salt16 [49]
        (Data.PasswordOrKey.password ("pw")) Fixtures.filesBoth).1
      ≠ Except.error (Data.DataErr.corruption Data.DataCorruptionType.DATA_NO_LOCK) := by
  constructor
  · rfl
  · simp [Data.get_connection, Fixtures.filesBoth]

/-- C2 (amended): when the lock file does not exist, `get_connection` raises
`DataCorruptionError(CONFIG_NO_LOCK)` if the config file exists, and
`DataCorruptionError(DATA_NO_LOCK)` if the data file exists and the config
file does not (the config check takes precedence); in both cases the on-disk
state is returned untouched — no fresh key is derived, no lock file is
written, and the user is not treated as new. -/
theorem C2_corruption_detection_amended {K : Type} (F : Crypto.FernetLike K)
    (D : String → List Nat → Nat → K) (freshSalt uid : List Nat)
    (pk : Data.PasswordOrKey) (files : Data.UserFiles)
    (hlock : files.lock = none) :
    (files.configExists = true →
      Data.get_connection F D freshSalt uid pk files
        = (Except.error (Data.DataErr.corruption Data.DataCorruptionType.CONFIG_NO_LOCK),
           files)) ∧
    (files.configExists = false → files.dataExists = true →
      Data.get_connection F D freshSalt uid pk files
        = (Except.error (Data.DataErr.corruption Data.DataCorruptionType.DATA_NO_LOCK),
           files)) := by
  refine ⟨fun hc => ?_, fun hc hd => ?_⟩
  · simp [Data.get_connection, hlock, hc]
  · simp [Data.get_connection, hlock, hc, hd]

/-- C3: the code evaluated at the failing input — a workflow standing at the
last (here: only) question of its poll, answered with a value that parses and
is not in any `delay_on` set.  Instead of storing the value and returning
`COMPLETED`, `add_answer` raises `IndexError`: after storing,
`_next_question` increments `current_question_index` and immediately reads
`questions[current_question_index]` — now one past the end — before any
completion check, so finishing a poll is unreachable. -/
theorem C3_last_question_answer_raises_index_error :
    Workflow.add_answer Fixtures.wOne Workflow.initialHeap ("Yes") 0
      = Except.error Workflow.PyErr.indexError := by
  simp [Workflow.add_answer, Workflow.addAnswerMain, Workflow.nextQuestion,
    Fixtures.wOne, Fixtures.pollOne, Fixtures.qYesNo, Fixtures.vYes, Fixtures.vNo,
    Workflow.mkPollWorkflow, Workflow.completed, Workflow.lookupSelect,
    Workflow.QuestionType.get_value_from_answer, Workflow.QuestionType.serialize_value,
    Workflow.addAnswerRaw, Workflow.initialHeap]

/-- C4 counterexample: the delay question (`delay_on=["No"], delay_time=2`)
was delayed at time 100; re-answering `No` at time 103 — at least
`delay_time` later.  The claim says this answer is now processed as a normal
answer (stored, may advance), but the call returns `DELAY` again with a new
delay stamped at 103, the answers dict still empty and the index unchanged:
clearing the elapsed delay merely falls through to the `delay_on` check,
which the same value re-triggers. -/
theorem C4_counterexample :
    (Workflow.add_answer Fixtures.wDelayed Workflow.initialHeap ("No") 103).map
        (fun r => (r.1, r.2.1.delayed_at, r.2.1.current_question_index,
                   Workflow.Heap.get r.2.2 r.2.1.answersRef))
      = Except.ok (Workflow.AddAnswerResult.DELAY, some 103, 0,
          ([] : Workflow.AnswersDict)) := by
  simp [Workflow.add_answer, Workflow.addAnswerMain, Fixtures.wDelayed,
    Fixtures.pollDelay, Fixtures.qDelay, Fixtures.qSecond, Fixtures.vYes, Fixtures.vNo,
    Workflow.mkPollWorkflow, Workflow.lookupSelect, Workflow.Heap.get,
    Workflow.QuestionType.get_value_from_answer, Workflow.QuestionType.serialize_value,
    Workflow.initialHeap, Workflow.defaultAnswersRef, Except.map]

/-- C4 (amended): for a question whose `delay_on` set contains the answered
value's serialized form and whose `delay_time` is a positive `dt` —
(1) answering that value when not delayed returns `DELAY` with
`delayed_at = now`, storing nothing and not advancing; (2) answering again
before `dt` has elapsed returns `DELAY` without consuming the answer;
(3) once at least `dt` has elapsed, re-answering that same value does NOT get
processed as a normal answer: the elapsed delay is cleared but the `delay_on`
check fires again, so the call returns `DELAY` with a fresh
`delayed_at = now`, the value still unstored and the index unchanged. -/
theorem C4_delay_semantics_amended (w : Workflow.PollWorkflow) (h : Workflow.Heap)
    (now : Int) (answer : String) (q : Workflow.Question) (dt : Int)
    (v : Workflow.ValueLabel)
    (hq : w.poll.questions.get? w.current_question_index = some q)
    (hdep : q.depends_on = none)
    (hparse : q.qtype.get_value_from_answer answer none = Except.ok v)
    (hdelayon : (q.delay_on.getD []).contains (q.qtype.serialize_value v) = true)
    (hdt : q.delay_time = some dt) (hdtpos : 0 < dt) :
    (w.delayed_at = none →
      Workflow.add_answer w h answer now
        = Except.ok (Workflow.AddAnswerResult.DELAY,
            { w with delayed_at := some now }, h)) ∧
    (∀ t, w.delayed_at = some t → now - t < dt →
      Workflow.add_answer w h answer now
        = Except.ok (Workflow.AddAnswerResult.DELAY, w, h)) ∧
    (∀ t, w.delayed_at = some t → dt ≤ now - t →
      Workflow.add_answer w h answer now
        = Except.ok (Workflow.AddAnswerResult.DELAY,
            { w with delayed_at := some now }, h)) := by
  have hq' : w.poll.questions[w.current_question_index]? = some q := by
    simpa [List.get?_eq_getElem?] using hq
  have hmem : q.qtype.serialize_value v ∈ q.delay_on.getD [] := by
    simpa using hdelayon
  have hzero : ¬dt = 0 := by omega
  refine ⟨fun hnd => ?_, fun t ht hlt => ?_, fun t ht hge => ?_⟩
  · simp [Workflow.add_answer, Workflow.addAnswerMain, hnd, hq', hdep, hparse, hmem]
  · simp [Workflow.add_answer, ht, hq', hdt, hzero, hlt]
  · have hnlt : ¬(now - t < dt) := by omega
    simp [Workflow.add_answer, ht, hq', hdt, hzero, hnlt,
      Workflow.addAnswerMain, hdep, hparse, hmem]

/-- C4 witness: the amended theorem instantiated on the concrete
`delay_on=["No"], delay_time=2` workflow at its three scenarios — fresh
answer at time 50, too-early retry at time 101 (delayed at 100), and retry at
time 103 after the delay elapsed. -/
theorem C4_delay_semantics_amended_witness :
    (Workflow.add_answer Fixtures.wFresh Workflow.initialHeap ("No") 50
      = Except.ok (Workflow.AddAnswerResult.DELAY,
          { Fixtures.wFresh with delayed_at := some 50 }, Workflow.initialHeap)) ∧
    (Workflow.add_answer Fixtures.wDelayed Workflow.initialHeap ("No") 101
      = Except.ok (Workflow.AddAnswerResult.DELAY, Fixtures.wDelayed,
          Workflow.initialHeap)) ∧
    (Workflow.add_answer Fixtures.wDelayed Workflow.initialHeap ("No") 103
      = Except.ok (Workflow.AddAnswerResult.DELAY,
          { Fixtures.wDelayed with delayed_at := some 103 },
          Workflow.initialHeap)) :=
  ⟨(C4_delay_semantics_amended Fixtures.wFresh Workflow.initialHeap 50 ("No")
      Fixtures.qDelay 2 Fixtures.vNo rfl rfl rfl rfl rfl (by norm_num)).1 rfl,
   (C4_delay_semantics_amended Fixtures.wDelayed Workflow.initialHeap 101 ("No")
      Fixtures.qDelay 2 Fixtures.vNo rfl rfl rfl rfl rfl (by norm_num)).2.1 100 rfl
     (by norm_num),
   (C4_delay_semantics_amended Fixtures.wDelayed Workflow.initialHeap 103 ("No")
      Fixtures.qDelay 2 Fixtures.vNo rfl rfl rfl rfl rfl (by norm_num)).2.2 100 rfl
     (by norm_num)⟩

/-- C5: the code evaluated at the failing input — a `SelectType` question
with options `Yes`/`No`, answered with the out-of-set string `Maybe`.  The
claim says `add_answer` returns the `ERROR` result with the state unchanged;
instead `SelectType.get_value_from_answer` raises `UnsupportedAnswerError`,
which nothing in `add_answer` catches (its `if not value: return ERROR` guard
expects a `None` the concrete types never return), so the exception escapes
the call. -/
theorem C5_unsupported_answer_raises_uncaught :
    Workflow.add_answer Fixtures.wOne Workflow.initialHeap ("Maybe") 0
      = Except.error Workflow.PyErr.unsupportedAnswer := by
  simp [Workflow.add_answer, Workflow.addAnswerMain, Fixtures.wOne, Fixtures.pollOne,
    Fixtures.qYesNo, Fixtures.vYes, Fixtures.vNo, Workflow.mkPollWorkflow,
    Workflow.lookupSelect, Workflow.QuestionType.get_value_from_answer]

/-- C6: the code evaluated at the failing input — a workflow that has
recorded one answer.  `from_dict (to_dict w)` does not reconstruct the
workflow: the comprehension `for i, v in serialized["answers_raw"]` iterates
the dict's integer keys and unpacking one raises `TypeError`, which is
neither of the caught exception types, so the call fails with a generic
`TypeError` instead of succeeding (or instead of the dedicated
workflow-deserialize-failed error the claim requires of every failure). -/
theorem C6_snapshot_roundtrip_raises_type_error :
    Workflow.fromDict (Workflow.toDict Fixtures.wTwo Fixtures.hTwo) Fixtures.hTwo
      = Except.error Workflow.FromDictErr.typeError := rfl

/-- C2 witness: the amended theorem applied at a concrete corrupted state
(lock missing, config and data present). -/
theorem C2_corruption_detection_amended_witness :
    Fixtures.filesBoth.lock = none ∧ Fixtures.filesBoth.configExists = true ∧
    Data.get_connection Fixtures.F0 Fixtures.D0 Fixtures.salt16 [49]
        Data.PasswordOrKey.other Fixtures.filesBoth
      = (Except.error (Data.DataErr.corruption Data.DataCorruptionType.CONFIG_NO_LOCK),
         Fixtures.filesBoth) :=
  ⟨rfl, rfl,
    (C2_corruption_detection_amended Fixtures.F0 Fixtures.D0 Fixtures.salt16 [49]
      Data.PasswordOrKey.other Fixtures.filesBoth rfl).1 rfl⟩

theorem appendMany_eq_builtRows {γ : Type} (enc : String → γ) (code : String)
    (msgs : List (String × Int)) : ∀ table : List (Data.LogRow γ),
    Data.appendMany enc table code msgs
      = table ++ Data.builtRows enc code (table.length + 1) msgs := by
  induction msgs with
  | nil => intro table; simp [Data.appendMany, Data.builtRows]
  | cons p rest ih =>
    intro table
    obtain ⟨m, t⟩ := p
    rw [Data.appendMany, ih]
    simp [Data.append_log, Data.builtRows, List.append_assoc]

theorem builtRows_filter_code {γ : Type} (enc : String → γ) (code : String)
    (firstId : Nat) (msgs : List (String × Int)) :
    (Data.builtRows enc code firstId msgs).filter (fun r => r.poll_code = code)
      = Data.builtRows enc code firstId msgs := by
  induction msgs generalizing firstId with
  | nil => rfl
  | cons p rest ih =>
    obtain ⟨m, t⟩ := p
    simp [Data.builtRows, List.filter_cons, ih]

theorem builtRows_take {γ : Type} (enc : String → γ) (code : String)
    (firstId k : Nat) (msgs : List (String × Int)) :
    (Data.builtRows enc code firstId msgs).take k
      = Data.builtRows enc code firstId (msgs.take k) := by
  induction msgs generalizing firstId k with
  | nil => simp [Data.builtRows]
  | cons p rest ih =>
    obtain ⟨m, t⟩ := p
    cases k with
    | zero => simp [Data.builtRows]
    | succ k1 => simp [Data.builtRows, List.take_succ_cons, ih]

theorem expectedRows_take (firstId k : Nat) (msgs : List (String × Int)) :
    (Data.expectedRows firstId msgs).take k
      = Data.expectedRows firstId (msgs.take k) := by
  induction msgs generalizing firstId k with
  | nil => simp [Data.expectedRows]
  | cons p rest ih =>
    obtain ⟨m, t⟩ := p
    cases k with
    | zero => simp [Data.expectedRows]
    | succ k1 => simp [Data.expectedRows, List.take_succ_cons, ih]

theorem queryAndDecrypt_builtRows {γ : Type} (enc : String → γ)
    (dec : γ → Option String) (hround : ∀ s, dec (enc s) = some s)
    (code : String) (firstId : Nat) (msgs : List (String × Int)) :
    Data.queryAndDecrypt dec (Data.builtRows enc code firstId msgs)
      = Except.ok (Data.expectedRows firstId msgs) := by
  induction msgs generalizing firstId with
  | nil => rfl
  | cons p rest ih =>
    obtain ⟨m, t⟩ := p
    simp [Data.builtRows, Data.queryAndDecrypt, Data.expectedRows, hround, ih]

/-- C7 counterexample: two rows appended for poll code `h` with strictly
increasing creation timestamps.  `get_last_n_logs("h", 1)` does not return
the most recently inserted row `(2, second)`: the underlying SELECT has no
ORDER BY, so `LIMIT 1` keeps the first — oldest — row `(1, first)`. -/
theorem C7_counterexample :
    Data.get_last_n_logs Fixtures.decO Fixtures.tbl2 ("h") 1
      = Except.ok [(1, ("first"))] ∧
    Data.get_last_n_logs Fixtures.decO Fixtures.tbl2 ("h") 1
      ≠ Except.ok [(2, ("second"))] := by
  constructor
  · rfl
  · simp [Data.get_last_n_logs, Data.get_poll_logs, Data.queryAndDecrypt,
      Fixtures.tbl2, Fixtures.encO, Fixtures.decO, Data.append_log]

/-- C7 (amended): for N rows inserted via `append_log` for one poll code with
strictly increasing creation timestamps and any `k ≤ N, k ≠ 0`,
`get_last_n_logs(poll_code, k)` returns exactly the k *earliest*-inserted
rows, in ascending insertion order (the SELECT has no ORDER BY and `LIMIT k`
keeps the first k rows of the table), and is by definition identical to
`get_poll_logs(poll_code, max_rows=k)`. -/
theorem C7_log_query_amended {γ : Type} (enc : String → γ)
    (dec : γ → Option String) (hround : ∀ s, dec (enc s) = some s)
    (code : String) (msgs : List (String × Int)) (k : Nat) (hk : k ≠ 0)
    (hkN : k ≤ msgs.length)
    (hinc : (msgs.map Prod.snd).Chain' (· < ·)) :
    Data.get_last_n_logs dec (Data.appendMany enc [] code msgs) code k
      = Except.ok ((Data.expectedRows 1 msgs).take k) ∧
    Data.get_last_n_logs dec (Data.appendMany enc [] code msgs) code k
      = Data.get_poll_logs dec (Data.appendMany enc [] code msgs) code
          none none (some k) := by
  refine ⟨?_, rfl⟩
  have h0 : Data.appendMany enc [] code msgs = Data.builtRows enc code 1 msgs := by
    simpa using appendMany_eq_builtRows enc code msgs []
  rw [Data.get_last_n_logs, Data.get_poll_logs, h0]
  simp only [builtRows_filter_code, hk, builtRows_take, expectedRows_take]
  simp [queryAndDecrypt_builtRows enc dec hround]

/-- C7 witness: the amended theorem applid at the two concrete rows of the
counterexample, with `k = 1`. -/
theorem C7_log_query_amended_witness :
    (1 : Nat) ≠ 0 ∧ (1 : Nat) ≤ Fixtures.msgs2.length ∧
    (Data.expectedRows 1 Fixtures.msgs2).take 1 = [(1, ("first"))] ∧
    Data.get_last_n_logs Fixtures.decO
        (Data.appendMany Fixtures.encO [] ("h") Fixtures.msgs2) ("h") 1
      = Except.ok ((Data.expectedRows 1 Fixtures.msgs2).take 1) :=
  ⟨by decide, by decide, rfl,
    (C7_log_query_amended Fixtures.encO Fixtures.decO (fun _ => rfl) ("h")
      Fixtures.msgs2 1 (by decide) (by decide)
      (by norm_num [Fixtures.msgs2, List.chain'_cons])).1⟩

/-- C8 counterexample: a table with one decryptable row and one corrupted
row.  The claim says the bulk read returns exactly the successfully decrypted
rows, silently skipping the bad one; instead `_query_and_decrypt` has no
exception handling, so the whole `get_all_logs` call aborts with the cipher's
`InvalidToken` and returns no rows at all. -/
theorem C8_counterexample :
    Data.get_all_logs Fixtures.decO Fixtures.tblMix
      = Except.error Data.DataErr.invalidToken ∧
    Data.get_all_logs Fixtures.decO Fixtures.tblMix
      ≠ Except.ok [(1, ("a"))] := by
  constructor
  · rfl
  · simp [Data.get_all_logs, Data.queryAndDecrypt, Fixtures.tblMix, Fixtures.decO]

/-- C8 (amended): bulk log reads are not best-effort — if any fetched row's
payload fails to decrypt, the whole read aborts with `InvalidToken` (no
partial result); only when every row decrypts does the call return all the
decrypted rows. -/
theorem C8_bulk_read_aborts_amended {γ : Type} (dec : γ → Option String)
    (table : List (Data.LogRow γ)) :
    ((∃ r ∈ table, dec r.log = none) →
      Data.get_all_logs dec table = Except.error Data.DataErr.invalidToken) ∧
    (∀ f : Data.LogRow γ → String, (∀ r ∈ table, dec r.log = some (f r)) →
      Data.get_all_logs dec table
        = Except.ok (table.map (fun r => (r.id, f r)))) := by
  constructor
  · induction table with
    | nil => rintro ⟨r, hr, _⟩; cases hr
    | cons a rest ih =>
      rintro ⟨r, hr, hfail⟩
      simp only [Data.get_all_logs, Data.queryAndDecrypt]
      rcases List.mem_cons.mp hr with rfl | hmem
      · rw [hfail]
      · cases hda : dec a.log with
        | none => rfl
        | some s =>
          have hrec := ih ⟨r, hmem, hfail⟩
          rw [Data.get_all_logs] at hrec
          rw [hrec]
  · induction table with
    | nil => intro f _; rfl
    | cons a rest ih =>
      intro f hf
      simp only [Data.get_all_logs, Data.queryAndDecrypt]
      rw [hf a (List.mem_cons_self a rest)]
      have hrec := ih f (fun r hr => hf r (List.mem_cons_of_mem a hr))
      rw [Data.get_all_logs] at hrec
      rw [hrec]
      rfl

/-- C8 witness: the amended theorem applied at the mixed table (one good row,
one corrupted row) and at its all-good prefix. -/
theorem C8_bulk_read_aborts_amended_witness :
    Data.get_all_logs Fixtures.decO Fixtures.tblMix
      = Except.error Data.DataErr.invalidToken ∧
    Data.get_all_logs Fixtures.decO
        [{ id := 1, poll_code := "h", log := some ("a"),
           created_ts := 1, updated_ts := 1 }]
      = Except.ok [(1, ("a"))] :=
  ⟨(C8_bulk_read_aborts_amended Fixtures.decO Fixtures.tblMix).1
      ⟨{ id := 2, poll_code := "h", log := none, created_ts := 2, updated_ts := 2 },
        by simp [Fixtures.tblMix], rfl⟩,
    (C8_bulk_read_aborts_amended Fixtures.decO
        [{ id := 1, poll_code := "h", log := some ("a"),
           created_ts := 1, updated_ts := 1 }]).2 (fun _ => ("a"))
      (fun r hr => by rcases List.mem_singleton.mp hr with rfl; rfl)⟩

/-- C9: evaluating the code at the failing input — two successive successful
`start_poll` calls on one session (polls `a` then `b`).  The claim requires
fresh, distinct run ids with both workflows retrievable; instead both
constructed workflows carry the module-load default UUID (the
`poll_run_id: UUID | None = uuid4()` default argument is evaluated once, when
the `def` is evaluated), so the second registration lands on the same
`_active_polls` key and overwrites the first, leaving a single entry. -/
theorem C9_start_poll_run_id_not_fresh :
    (Session.start_poll { active_polls := [] } Fixtures.pollA 0).map
        (fun r => r.1.poll_run_id) = Except.ok Workflow.moduleLoadUUID ∧
    ((Session.start_poll { active_polls := [] } Fixtures.pollA 0).bind
        (fun r => (Session.start_poll r.2 Fixtures.pollB 0).map
          (fun r2 => (r2.1.poll_run_id, r2.2.active_polls.length))))
      = Except.ok (Workflow.moduleLoadUUID, 1) :=
  ⟨rfl, rfl⟩

theorem mem_enum_of_getQuestion {α : Type} {l : List α} {i : Nat} {x : α}
    (h : l.get? i = some x) : (i, x) ∈ l.enum := by
  rw [List.mk_mem_enum_iff_getElem?]
  simpa [List.get?_eq_getElem?] using h

/-- C10 (implicit): two `PollWorkflow` instances constructed without an
explicit `answers_raw` argument — as `UserSession.start_poll` constructs
them — share the single dict object created when the default argument
`answers_raw: Dict[int, ValueLabel] = {}` was evaluated at module load: their
references coincide, and an answer recorded through one workflow's
`_add_answer` is observable through the other workflow's `answers` property
and appears serialized in its `get_save_data` output.  Per-run answer state
is not isolated. -/
theorem C10_shared_default_answers_dict (p1 p2 : Workflow.Poll) (now1 now2 : Int)
    (h : Workflow.Heap) (v : Workflow.ValueLabel) (i : Nat) (q : Workflow.Question)
    (hq : p2.questions.get? i = some q) (heph : q.ephemeral = false)
    (hempty : h.get Workflow.defaultAnswersRef = []) :
    (Workflow.mkPollWorkflow p1 now1).answersRef
      = (Workflow.mkPollWorkflow p2 now2).answersRef ∧
    Workflow.answers (Workflow.mkPollWorkflow p2 now2)
        (Workflow.addAnswerRaw (Workflow.mkPollWorkflow p1 now1) h v i)
      = Except.ok [v] ∧
    q.qtype.serialize_value v
      ∈ (Workflow.getSaveData (Workflow.mkPollWorkflow p2 now2)
          (Workflow.addAnswerRaw (Workflow.mkPollWorkflow p1 now1) h v i)).2 := by
  have hcells : h.cells Workflow.defaultAnswersRef = [] := hempty
  have hget : Workflow.Heap.get
      (Workflow.addAnswerRaw (Workflow.mkPollWorkflow p1 now1) h v i)
      Workflow.defaultAnswersRef = [(i, v)] := by
    simp [Workflow.addAnswerRaw, Workflow.Heap.get, Workflow.Heap.set,
      Workflow.mkPollWorkflow, hcells, Workflow.dictSet]
  have hq' : p2.questions[i]? = some q := by
    simpa [List.get?_eq_getElem?] using hq
  refine ⟨rfl, ?_, ?_⟩
  · show Workflow.answersList p2.questions _ = Except.ok [v]
    rw [show Workflow.Heap.get
        (Workflow.addAnswerRaw (Workflow.mkPollWorkflow p1 now1) h v i)
        (Workflow.mkPollWorkflow p2 now2).answersRef = [(i, v)] from hget]
    simp [Workflow.answersList, hq', heph]
  · show q.qtype.serialize_value v ∈ _ :: List.filterMap _ _
    apply List.mem_cons_of_mem
    apply List.mem_filterMap.mpr
    refine ⟨(i, q), mem_enum_of_getQuestion hq, ?_⟩
    rw [show Workflow.Heap.get
        (Workflow.addAnswerRaw (Workflow.mkPollWorkflow p1 now1) h v i)
        (Workflow.mkPollWorkflow p2 now2).answersRef = [(i, v)] from hget]
    simp [heph, Workflow.dictGet]

/-- C10 witness: the aliasing observed at concrete inputs — a workflow on
poll `a` records `No` at index 0; a workflow on the two-question poll sees it
in `answers` and in its save row. -/
theorem C10_shared_default_answers_dict_witness :
    Fixtures.pollTwo.questions.get? 0 = some Fixtures.qYesNo ∧
    Workflow.answers (Workflow.mkPollWorkflow Fixtures.pollTwo 5)
        (Workflow.addAnswerRaw (Workflow.mkPollWorkflow Fixtures.pollA 3)
          Workflow.initialHeap Fixtures.vNo 0)
      = Except.ok [Fixtures.vNo] ∧
    Fixtures.qYesNo.qtype.serialize_value Fixtures.vNo
      ∈ (Workflow.getSaveData (Workflow.mkPollWorkflow Fixtures.pollTwo 5)
          (Workflow.addAnswerRaw (Workflow.mkPollWorkflow Fixtures.pollA 3)
            Workflow.initialHeap Fixtures.vNo 0)).2 :=
  ⟨rfl,
    (C10_shared_default_answers_dict Fixtures.pollA Fixtures.pollTwo 3 5
      Workflow.initialHeap Fixtures.vNo 0 Fixtures.qYesNo rfl rfl rfl).2.1,
    (C10_shared_default_answers_dict Fixtures.pollA Fixtures.pollTwo 3 5
      Workflow.initialHeap Fixtures.vNo 0 Fixtures.qYesNo rfl rfl rfl).2.2⟩
